import Mathlib

/-!
Verification development for the `log` package (files `log.go`, `severity.go`):
a process-wide logging facade that fans formatted, severity-tagged messages
out to a registry of backend loggers.

Shallow embedding conventions:
* Go `int32` severities become `Int`; a Go slice-index panic becomes `none`.
* Fallible Go functions returning `(T, error)` become `Except String T`.
* The package-global `loggers` slice is passed explicitly: every facade
  function takes the current registry and returns the registry it leaves
  behind, together with the list of strings written per backend.
* `io.Writer` destinations are not modelled as resources; what matters for
  the spec is which strings are handed to a backend's writer, so a backend is
  a pair of its writer-availability predicate and its message formatter, and
  an emission returns the written strings in registration order.
-/

namespace PLog

/-! Severity (severity.go).  `type Severity int32`. -/

abbrev Severity := Int

def SeverityDebug : Severity := 0

def SeverityInfo : Severity := 1

def SeverityWarning : Severity := 2

def SeverityError : Severity := 3

/-- Modelled from the spec: `SeverityWarn` is used by `Warnf` in log.go but is
declared nowhere in the sources; per the design notes it denotes the WARN
level, i.e. `SeverityWarning`. -/
def SeverityWarn : Severity := SeverityWarning

/-- Modelled from the spec: `SeverityFatal` is used by `Fatalf` and
`writeMessage` in log.go but is declared nowhere in the sources; per the
design notes it is a dispatch-only pseudo-severity above ERROR. -/
def SeverityFatal : Severity := 4

def severityNames : List String := ["DEBUG", "INFO", "WARN", "ERROR"]

/-- Embedding of `func (s Severity) String() string { return severityNames[s] }`.
Go's out-of-range slice indexing panic is modelled as `none`. -/
def severityString (s : Severity) : Option String :=
  if 0 ≤ s then severityNames.get? s.toNat else none

/-- Model of Go `strings.ToUpper` on the basic-latin range (which covers the
severity name table), as used by `severityFromString`. -/
def stringToUpper (s : String) : String :=
  ⟨s.data.map Char.toUpper⟩

/-- Embedding of `severityFromString` (severity.go): upper-case the argument,
scan `severityNames` for the first exact match returning its index, otherwise
report an unsupported-severity error.  (Go reassigns the local `s` to its
upper-cased form before the loop; the embedding inlines that local.) -/
def severityFromString (s : String) : Except String Severity :=
  match severityNames.findIdx? (fun name => name == stringToUpper s) with
  | some idx => .ok (idx : Int)
  | none => .error ("unsupported severity: " ++ stringToUpper s)

/-! The logging facade (log.go). -/

/-- Values passed as `args ...interface{}` to the printf-style functions.
Only the argument kinds the verification needs are modelled; `list` is a
`[]interface{}` value, as produced when a variadic call passes a slice
unspread. -/
inductive GoValue where
  | int (n : Int)
  | str (s : String)
  | list (xs : List GoValue)

mutual

/-- Rendering of one argument value under Go's fmt verbs `%d`/`%s`/`%v` as
the sources use them; a slice renders as its elements space-separated in
brackets, as fmt does. -/
def goFormatValue : GoValue → String
  | .int n => toString n
  | .str s => s
  | .list xs => "[" ++ goFormatElems xs ++ "]"

def goFormatElems : List GoValue → String
  | [] => ""
  | [x] => goFormatValue x
  | x :: y :: rest => goFormatValue x ++ " " ++ goFormatElems (y :: rest)

end

/-- Model of Go `fmt.Sprintf` for the verbs the sources use (`%d`, `%s`,
`%v`): scan the format, substituting the next argument at each verb. -/
def goSprintfAux : List Char → List GoValue → List Char
  | [], _ => []
  | '%' :: c :: rest, args =>
    if c = 'd' ∨ c = 's' ∨ c = 'v' then
      match args with
      | a :: args => (goFormatValue a).data ++ goSprintfAux rest args
      | [] => '%' :: c :: goSprintfAux rest []
    else '%' :: c :: goSprintfAux rest args
  | c :: rest, args => c :: goSprintfAux rest args

def goSprintf (format : String) (args : List GoValue) : String :=
  ⟨goSprintfAux format.data args⟩

/-- A registered backend.  The `Logger` interface's own `Infof`/… methods are
never called by the facade; what the facade uses is `Writer` (modelled as the
predicate `writerAt`, `true` iff `Writer(sev)` returns a non-nil writer) and
`FormatMessage`.  An emission returns the strings handed to the backend's
writer, so the writer itself carries no state here. -/
structure Logger where
  writerAt : Severity → Bool
  formatMessage : Severity → String → String → Int → String → List GoValue → String

/-- Embedding of `LogConfig` (log.go). -/
structure LogConfig where
  Name : String
  Severity : String
deriving DecidableEq

/-- Embedding of `func (c LogConfig) String() string`: renders via
`fmt.Sprintf("LogConfig(Name=%v, Severity=%v)", c.Name, c.Severity)`. -/
def LogConfig.render (c : LogConfig) : String :=
  goSprintf "LogConfig(Name=%v, Severity=%v)" [.str c.Name, .str c.Severity]

/-- Modelled from the spec: the backend constructors `NewConsoleLogger`,
`NewSysLogger` and `NewUDPLogger` are not among the sources; each acquires
its destination resource and either yields a backend or reports a
construction failure.  They are parameters of the model. -/
structure Constructors where
  NewConsoleLogger : LogConfig → Except String Logger
  NewSysLogger : LogConfig → Except String Logger
  NewUDPLogger : LogConfig → Except String Logger

/-- Embedding of `NewLogger` (log.go): dispatch on `config.Name`; any other
name yields `errors.New(fmt.Sprintf("unknown logger: %v", config))`, where
`%v` on `LogConfig` uses its `String()` rendering. -/
def NewLogger (ctors : Constructors) (config : LogConfig) : Except String Logger :=
  match config.Name with
  | "console" => ctors.NewConsoleLogger config
  | "syslog" => ctors.NewSysLogger config
  | "udplog" => ctors.NewUDPLogger config
  | _ => .error (goSprintf "unknown logger: %v" [.str config.render])

/-- The package-level `var loggers []Logger` at process start: nil. -/
def initialLoggers : List Logger := []

/-- Embedding of `Init` (log.go): the loop appending each given backend to
the global registry, which is threaded explicitly. -/
def Init (loggers : List Logger) (l : List Logger) : List Logger :=
  l.foldl (fun acc logger => acc ++ [logger]) loggers

/-- Embedding of `InitWithConfig` (log.go): construct each configuration's
backend in order, appending to the registry; the first failure returns that
error, leaving the registry as appended so far.  Result: the registry left
behind and the returned error (`none` for Go `nil`). -/
def InitWithConfig (ctors : Constructors) (loggers : List Logger) :
    List LogConfig → List Logger × Option String
  | [] => (loggers, none)
  | config :: rest =>
    match NewLogger ctors config with
    | .error err => (loggers, some err)
    | .ok l => InitWithConfig ctors (loggers ++ [l]) rest

/-- Modelled from the spec: `callerInfo` is not among the sources; it yields
the call site's source file name, function name and line number.  An
emission takes the capture as a parameter. -/
structure Caller where
  fileName : String
  funcName : String
  lineNo : Int

/-- Embedding of `writeMessage` (log.go), with the snapshot `stackTraces()`
(not among the sources; modelled from the spec as the captured dump of all
currently running execution stacks) passed in as `st`.  Result: the strings
written to this backend's writer, in order.  The call
`logger.FormatMessage(sev, ..., format, args...)` spreads `writeMessage`'s
own variadic slice, which `FormatMessage`'s variadic parameter collects
back, so the very list `writeMessage` received is handed to the formatter.
The Go body assigns the formatted string to an undeclared `message`
variable; the embedding reads it as the intended local. -/
def writeMessage (st : String) (caller : Caller) (logger : Logger)
    (sev : Severity) (format : String) (args : List GoValue) : List String :=
  if logger.writerAt sev then
    let message := logger.formatMessage sev caller.fileName caller.funcName
      caller.lineNo format args
    if sev = SeverityFatal then [message, st] else [message]
  else []

/-- Embedding of `Infof` (log.go): loop `writeMessage` over the registry at
`SeverityInfo`.  The call `writeMessage(logger, 1, SeverityInfo, format, args)`
passes the caller's `args` slice unspread into `writeMessage`'s variadic
parameter, so `writeMessage` receives the one-element slice holding it —
embedded as `[.list args]`.  Result: the registry left behind (unchanged)
and, per registered backend in registration order, the strings written to
it. -/
def Infof (st : String) (caller : Caller) (loggers : List Logger)
    (format : String) (args : List GoValue) : List Logger × List (List String) :=
  (loggers, loggers.map (fun logger =>
    writeMessage st caller logger SeverityInfo format [.list args]))

/-- Embedding of `Warnf` (log.go); the same unspread variadic pass-through
of `args` as in `Infof`. -/
def Warnf (st : String) (caller : Caller) (loggers : List Logger)
    (format : String) (args : List GoValue) : List Logger × List (List String) :=
  (loggers, loggers.map (fun logger =>
    writeMessage st caller logger SeverityWarn format [.list args]))

/-- Embedding of `Errorf` (log.go); the same unspread variadic pass-through
of `args` as in `Infof`. -/
def Errorf (st : String) (caller : Caller) (loggers : List Logger)
    (format : String) (args : List GoValue) : List Logger × List (List String) :=
  (loggers, loggers.map (fun logger =>
    writeMessage st caller logger SeverityError format [.list args]))

/-- Embedding of `Fatalf` (log.go).  The third component is the process exit
status requested by the function body: the body as written only loops
`writeMessage` over the registry at `SeverityFatal` and returns — it contains
no `os.Exit` call — so that component is `none`.  (The function's own doc
comment says it ends by calling `os.Exit(255)`.)  As in `Infof`, `args` is
passed unspread, so `writeMessage` receives it wrapped. -/
def Fatalf (st : String) (caller : Caller) (loggers : List Logger)
    (format : String) (args : List GoValue) :
    List Logger × List (List String) × Option Int :=
  (loggers,
   loggers.map (fun logger =>
     writeMessage st caller logger SeverityFatal format [.list args]),
   none)

/-! Helper lemmas. -/

theorem toNat_ofNat_of_lt {m : Nat} (h : m < 55296) : (Char.ofNat m).toNat = m := by
  have hv : m.isValidChar := Or.inl h
  simp [Char.ofNat, hv, Char.ofNatAux, Char.toNat, UInt32.toNat, BitVec.toNat_ofNatLt]

theorem charToUpper_idem (c : Char) : c.toUpper.toUpper = c.toUpper := by
  unfold Char.toUpper
  by_cases h : c.toNat ≥ 97 ∧ c.toNat ≤ 122
  · simp only [h, and_self, if_true, if_pos]
    have h1 : (Char.ofNat (c.toNat - 32)).toNat = c.toNat - 32 :=
      toNat_ofNat_of_lt (by omega)
    have h2 : ¬ ((Char.ofNat (c.toNat - 32)).toNat ≥ 97 ∧
        (Char.ofNat (c.toNat - 32)).toNat ≤ 122) := by
      rw [h1]; omega
    simp [h2]
  · simp [h]

theorem stringToUpper_idem (s : String) :
    stringToUpper (stringToUpper s) = stringToUpper s := by
  unfold stringToUpper
  have hc : Char.toUpper ∘ Char.toUpper = Char.toUpper := funext charToUpper_idem
  simp [List.map_map, hc]

theorem severityFromString_toUpper (n : String) :
    severityFromString n = severityFromString (stringToUpper n) := by
  unfold severityFromString
  rw [stringToUpper_idem]

theorem severityFromString_isOk_iff (n : String) :
    ((severityFromString n).isOk = true ↔ stringToUpper n ∈ severityNames) := by
  unfold severityFromString
  cases hfind : severityNames.findIdx? (fun name => name == stringToUpper n) with
  | none =>
    dsimp only
    rw [List.findIdx?_eq_none_iff] at hfind
    simp only [Except.isOk]
    constructor
    · intro h; simp [Except.toBool] at h
    · intro hmem
      have := hfind _ hmem
      simp at this
  | some idx =>
    dsimp only
    simp only [Except.isOk]
    constructor
    · intro _
      obtain ⟨hlt, hp, -⟩ := List.findIdx?_eq_some_iff_getElem.mp hfind
      have hg : severityNames[idx] = stringToUpper n := by simpa using hp
      rw [← hg]
      exact List.getElem_mem hlt
    · intro _; rfl

theorem severityFromString_not_mem (n : String)
    (h : ¬ stringToUpper n ∈ severityNames) :
    severityFromString n = .error ("unsupported severity: " ++ stringToUpper n) := by
  unfold severityFromString
  have hfind : severityNames.findIdx? (fun name => name == stringToUpper n) = none := by
    rw [List.findIdx?_eq_none_iff]
    intro x hx
    simp only [beq_eq_false_iff_ne, ne_eq]
    exact fun he => h (he ▸ hx)
  rw [hfind]

theorem goSprintf_unknown_logger (x : String) :
    goSprintf "unknown logger: %v" [.str x] = "unknown logger: " ++ x := by
  unfold goSprintf
  apply congrArg String.mk
  simp [goSprintfAux, goFormatValue, String.data_append]

theorem logConfig_render_eq (c : LogConfig) :
    c.render = "LogConfig(Name=" ++ c.Name ++ ", Severity=" ++ c.Severity ++ ")" := by
  unfold LogConfig.render goSprintf
  apply congrArg String.mk
  simp [goSprintfAux, goFormatValue, String.data_append]

theorem Init_eq_append (loggers l : List Logger) :
    Init loggers l = loggers ++ l := by
  unfold Init
  induction l generalizing loggers with
  | nil => simp
  | cons a t ih =>
    show List.foldl _ (loggers ++ [a]) t = _
    rw [ih (loggers ++ [a])]
    simp

theorem initWithConfig_registry_extends (ctors : Constructors)
    (loggers : List Logger) (configs : List LogConfig) :
    ∃ t, (InitWithConfig ctors loggers configs).1 = loggers ++ t := by
  induction configs generalizing loggers with
  | nil => exact ⟨[], by simp [InitWithConfig]⟩
  | cons c rest ih =>
    unfold InitWithConfig
    cases hnl : NewLogger ctors c with
    | error e => exact ⟨[], by simp⟩
    | ok l =>
      obtain ⟨t, ht⟩ := ih (loggers ++ [l])
      exact ⟨[l] ++ t, by simpa using ht⟩

theorem initWithConfig_all_ok (ctors : Constructors) (loggers : List Logger)
    (configs : List LogConfig)
    (h : ∀ c ∈ configs, (NewLogger ctors c).isOk = true) :
    InitWithConfig ctors loggers configs
      = (loggers ++ configs.filterMap (fun c => (NewLogger ctors c).toOption), none) := by
  induction configs generalizing loggers with
  | nil => simp [InitWithConfig]
  | cons c rest ih =>
    have hc := h c (List.mem_cons_self c rest)
    cases hnl : NewLogger ctors c with
    | error e => rw [hnl] at hc; simp [Except.isOk, Except.toBool] at hc
    | ok l =>
      unfold InitWithConfig
      rw [hnl]
      dsimp only
      rw [ih (loggers ++ [l]) (fun d hd => h d (List.mem_cons_of_mem c hd))]
      simp [hnl, Except.toOption]

theorem initWithConfig_stops_at_failure (ctors : Constructors) (loggers : List Logger)
    (pre rest : List LogConfig) (bad : LogConfig) (e : String)
    (hpre : ∀ c ∈ pre, (NewLogger ctors c).isOk = true)
    (hbad : NewLogger ctors bad = .error e) :
    InitWithConfig ctors loggers (pre ++ bad :: rest)
      = (loggers ++ pre.filterMap (fun c => (NewLogger ctors c).toOption), some e) := by
  induction pre generalizing loggers with
  | nil =>
    rw [List.nil_append]
    simp [InitWithConfig, hbad]
  | cons c t ih =>
    have hc := hpre c (List.mem_cons_self c t)
    cases hnl : NewLogger ctors c with
    | error e' => rw [hnl] at hc; simp [Except.isOk, Except.toBool] at hc
    | ok l =>
      rw [List.cons_append]
      unfold InitWithConfig
      rw [hnl]
      dsimp only
      rw [ih (loggers ++ [l]) (fun d hd => hpre d (List.mem_cons_of_mem c hd))]
      simp [hnl, Except.toOption]

/-! Claim theorems about Severity. -/

/-- C4: for every defined severity s in DEBUG, INFO, WARN, ERROR,
`severityFromString` applied to its `String()` name returns s with no error
(round-trip); parsing is case-insensitive — `severityFromString n` equals
`severityFromString` of the upper-cased n for every string n — and in
particular parsing "warn" equals parsing "WARN". -/
theorem severity_roundtrip_case_insensitive :
    (∀ s : Int,
      (s = SeverityDebug ∨ s = SeverityInfo ∨ s = SeverityWarning ∨ s = SeverityError) →
      ∃ nm, severityString s = some nm ∧ severityFromString nm = .ok s)
    ∧ (∀ n : String, severityFromString n = severityFromString (stringToUpper n))
    ∧ severityFromString "warn" = severityFromString "WARN" := by
  refine ⟨?_, severityFromString_toUpper, rfl⟩
  intro s h
  rcases h with h | h | h | h <;> subst h
  · exact ⟨"DEBUG", rfl, rfl⟩
  · exact ⟨"INFO", rfl, rfl⟩
  · exact ⟨"WARN", rfl, rfl⟩
  · exact ⟨"ERROR", rfl, rfl⟩

/-- Witness for C4: the round-trip at the WARN level, concretely. -/
theorem severity_roundtrip_case_insensitive_witness :
    ∃ nm, severityString SeverityWarning = some nm ∧
      severityFromString nm = .ok SeverityWarning :=
  severity_roundtrip_case_insensitive.1 SeverityWarning (Or.inr (Or.inr (Or.inl rfl)))

/-- C5: `severityFromString` fails (is not ok) exactly when the upper-cased
name matches no entry of the severity name table; when it fails it fails
with the unsupported-severity error; in particular "TRACE" fails with that
error. -/
theorem severityFromString_unknown_severity :
    (∀ n : String, ((severityFromString n).isOk = true ↔ stringToUpper n ∈ severityNames))
    ∧ (∀ n : String, ¬ stringToUpper n ∈ severityNames →
        severityFromString n = .error ("unsupported severity: " ++ stringToUpper n))
    ∧ severityFromString "TRACE" = .error "unsupported severity: TRACE" :=
  ⟨severityFromString_isOk_iff, severityFromString_not_mem, rfl⟩

/-- Witness for C5: "TRACE" is not in the name table and parsing it yields
the unsupported-severity error. -/
theorem severityFromString_unknown_severity_witness :
    severityFromString "TRACE" =
      .error ("unsupported severity: " ++ stringToUpper "TRACE") :=
  severityFromString_unknown_severity.2.1 "TRACE" (by decide)

/-- C9: `Severity.String` is total on the defined levels — DEBUG, INFO,
WARN, ERROR map to exactly those names — and it fails (Go: panics on slice
indexing) exactly when the integer lies outside the defined range 0..3. -/
theorem severityString_total_on_defined :
    severityString SeverityDebug = some "DEBUG"
    ∧ severityString SeverityInfo = some "INFO"
    ∧ severityString SeverityWarning = some "WARN"
    ∧ severityString SeverityError = some "ERROR"
    ∧ ∀ s : Int, (severityString s = none ↔ s < 0 ∨ 4 ≤ s) := by
  refine ⟨rfl, rfl, rfl, rfl, ?_⟩
  intro s
  unfold severityString
  by_cases h : 0 ≤ s
  · rw [if_pos h, List.get?_eq_none]
    show severityNames.length ≤ s.toNat ↔ _
    have hlen : severityNames.length = 4 := rfl
    rw [hlen]
    omega
  · rw [if_neg h]
    constructor
    · intro _; omega
    · intro _; rfl

/-! Claim theorems about the facade. -/

/-- C8: every emission function, called while the registry is still the
process-start registry (empty), is a no-op: the call is total (the embedded
functions are plain total functions, so no panic), nothing is written to any
writer, and the registry it leaves behind is still empty. -/
theorem emission_on_empty_registry_noop (st : String) (caller : Caller)
    (format : String) (args : List GoValue) :
    Infof st caller initialLoggers format args = ([], [])
    ∧ Warnf st caller initialLoggers format args = ([], [])
    ∧ Errorf st caller initialLoggers format args = ([], [])
    ∧ Fatalf st caller initialLoggers format args = ([], [], none) :=
  ⟨rfl, rfl, rfl, rfl⟩

/-- C10: the registry is empty at process start, `Init` only appends (the
previous registry is preserved in place as the front of the new one),
`InitWithConfig` likewise leaves the previous registry as the front of the
registry it produces, and none of the four emission functions changes the
registry at all. -/
theorem registry_append_only (loggers l : List Logger) (ctors : Constructors)
    (configs : List LogConfig) (st : String) (caller : Caller)
    (format : String) (args : List GoValue) :
    initialLoggers = []
    ∧ Init loggers l = loggers ++ l
    ∧ (∃ t, (InitWithConfig ctors loggers configs).1 = loggers ++ t)
    ∧ (Infof st caller loggers format args).1 = loggers
    ∧ (Warnf st caller loggers format args).1 = loggers
    ∧ (Errorf st caller loggers format args).1 = loggers
    ∧ (Fatalf st caller loggers format args).1 = loggers :=
  ⟨rfl, Init_eq_append loggers l,
   initWithConfig_registry_extends ctors loggers configs, rfl, rfl, rfl, rfl⟩

/-- A concrete backend used to evaluate the code at specific inputs: accepts
every severity and formats a message as just the printf-rendered user text. -/
def demoBackend : Logger where
  writerAt := fun _ => true
  formatMessage := fun _ _ _ _ format args => goSprintf format args

def demoCaller : Caller := ⟨"main.go", "main", 42⟩

/-- C1 (code divergence): with one registered backend accepting the fatal
severity, `Fatalf` does write a formatted message (rendering the unspread
args slice wrapped: "boom [7]") followed by the captured stack snapshot to
that backend's writer, but then returns with no process exit requested
(third component `none`): the body of `Fatalf` contains no `os.Exit` call,
although its own doc comment says it ends by calling `os.Exit(255)` and the
spec requires termination with a distinguished non-zero status after
delivery. -/
theorem fatalf_writes_but_never_exits :
    Fatalf "stack dump" demoCaller [demoBackend] "boom %d" [.int 7]
      = ([demoBackend], [["boom [7]", "stack dump"]], none) := rfl

/-- C7 (amended): each emission function writes to the i-th registered
backend exactly the result of `writeMessage` for that backend (so backends
are served in registration order, one slot each); `writeMessage` writes
something to a backend exactly when the backend's writer for the call's
severity is non-nil, and in that case the first string written is the
backend's `FormatMessage` applied to the severity, the captured caller
location, the call's format — and the call's arguments wrapped as a single
slice argument, because each emission function passes its `args` slice
unspread into `writeMessage`'s variadic parameter. -/
theorem emission_per_backend (st : String) (caller : Caller)
    (loggers : List Logger) (format : String) (args : List GoValue)
    (i : Nat) (hi : i < loggers.length) :
    ((Infof st caller loggers format args).2.get? i
       = some (writeMessage st caller (loggers.get ⟨i, hi⟩) SeverityInfo
           format [.list args]))
    ∧ ((Warnf st caller loggers format args).2.get? i
       = some (writeMessage st caller (loggers.get ⟨i, hi⟩) SeverityWarn
           format [.list args]))
    ∧ ((Errorf st caller loggers format args).2.get? i
       = some (writeMessage st caller (loggers.get ⟨i, hi⟩) SeverityError
           format [.list args]))
    ∧ ((Fatalf st caller loggers format args).2.1.get? i
       = some (writeMessage st caller (loggers.get ⟨i, hi⟩) SeverityFatal
           format [.list args]))
    ∧ (∀ sev : Int,
        (writeMessage st caller (loggers.get ⟨i, hi⟩) sev format [.list args] ≠ []
          ↔ (loggers.get ⟨i, hi⟩).writerAt sev = true))
    ∧ (∀ sev : Int, (loggers.get ⟨i, hi⟩).writerAt sev = true →
        (writeMessage st caller (loggers.get ⟨i, hi⟩) sev format [.list args]).head?
          = some ((loggers.get ⟨i, hi⟩).formatMessage sev caller.fileName
              caller.funcName caller.lineNo format [.list args])) := by
  refine ⟨?_, ?_, ?_, ?_, ?_, ?_⟩
  · rw [show (Infof st caller loggers format args).2
        = loggers.map (fun logger =>
            writeMessage st caller logger SeverityInfo format [.list args]) from rfl,
      List.get?_map, List.get?_eq_get hi]
    rfl
  · rw [show (Warnf st caller loggers format args).2
        = loggers.map (fun logger =>
            writeMessage st caller logger SeverityWarn format [.list args]) from rfl,
      List.get?_map, List.get?_eq_get hi]
    rfl
  · rw [show (Errorf st caller loggers format args).2
        = loggers.map (fun logger =>
            writeMessage st caller logger SeverityError format [.list args]) from rfl,
      List.get?_map, List.get?_eq_get hi]
    rfl
  · rw [show (Fatalf st caller loggers format args).2.1
        = loggers.map (fun logger =>
            writeMessage st caller logger SeverityFatal format [.list args]) from rfl,
      List.get?_map, List.get?_eq_get hi]
    rfl
  · intro sev
    unfold writeMessage
    cases hw : (loggers.get ⟨i, hi⟩).writerAt sev with
    | false => simp [hw]
    | true =>
      by_cases hf : sev = SeverityFatal <;> simp [hw, hf]
  · intro sev hw
    unfold writeMessage
    simp only [List.get_eq_getElem] at hw
    by_cases hf : sev = SeverityFatal
    · subst hf; simp [hw]
    · simp [hw, hf]

/-- Counterexample for C7 as originally stated: with the backend's
formatter being plain `goSprintf`, `Infof("x=%d", 5)` writes the string
rendered from the wrapped argument list ("x=[5]"), which is NOT
`FormatMessage` applied to the call's own arguments (that would render
"x=5"): the two candidate write lists differ. -/
theorem emission_per_backend_counterexample :
    (Infof "st" demoCaller [demoBackend] "x=%d" [.int 5]).2
      = [[demoBackend.formatMessage SeverityInfo demoCaller.fileName
            demoCaller.funcName demoCaller.lineNo "x=%d" [.list [.int 5]]]]
    ∧ (((Infof "st" demoCaller [demoBackend] "x=%d" [.int 5]).2
        == [[demoBackend.formatMessage SeverityInfo demoCaller.fileName
            demoCaller.funcName demoCaller.lineNo "x=%d" [.int 5]]]) = false) :=
  ⟨rfl, by decide⟩

/-- Witness for C7: the per-backend write facts, evaluated with the single
registered backend `demoBackend`. -/
theorem emission_per_backend_witness :
    ((Infof "st" demoCaller [demoBackend] "x" []).2.get? 0
       = some (writeMessage "st" demoCaller ([demoBackend].get ⟨0, by decide⟩)
           SeverityInfo "x" [.list []]))
    ∧ ((Warnf "st" demoCaller [demoBackend] "x" []).2.get? 0
       = some (writeMessage "st" demoCaller ([demoBackend].get ⟨0, by decide⟩)
           SeverityWarn "x" [.list []]))
    ∧ ((Errorf "st" demoCaller [demoBackend] "x" []).2.get? 0
       = some (writeMessage "st" demoCaller ([demoBackend].get ⟨0, by decide⟩)
           SeverityError "x" [.list []]))
    ∧ ((Fatalf "st" demoCaller [demoBackend] "x" []).2.1.get? 0
       = some (writeMessage "st" demoCaller ([demoBackend].get ⟨0, by decide⟩)
           SeverityFatal "x" [.list []]))
    ∧ (∀ sev : Int,
        (writeMessage "st" demoCaller ([demoBackend].get ⟨0, by decide⟩) sev "x"
            [.list []] ≠ []
          ↔ ([demoBackend].get ⟨0, by decide⟩).writerAt sev = true))
    ∧ (∀ sev : Int, ([demoBackend].get ⟨0, by decide⟩).writerAt sev = true →
        (writeMessage "st" demoCaller ([demoBackend].get ⟨0, by decide⟩) sev "x"
            [.list []]).head?
          = some (([demoBackend].get ⟨0, by decide⟩).formatMessage sev
              demoCaller.fileName demoCaller.funcName demoCaller.lineNo "x"
              [.list []])) :=
  emission_per_backend "st" demoCaller [demoBackend] "x" [] 0 (by decide)

/-- C3: `InitWithConfig` constructs backends in configuration order.  When
every construction succeeds, all backends are appended in order and no
error is returned; on the first failing configuration the constructor's
error is returned, the backends built before the failure stay appended (no
rollback), and the configurations after the failure play no role in the
result. -/
theorem initWithConfig_order_and_first_failure (ctors : Constructors)
    (loggers : List Logger) (configs pre rest : List LogConfig)
    (bad : LogConfig) (e : String) :
    ((∀ c ∈ configs, (NewLogger ctors c).isOk = true) →
      InitWithConfig ctors loggers configs
        = (loggers ++ configs.filterMap (fun c => (NewLogger ctors c).toOption), none))
    ∧ ((∀ c ∈ pre, (NewLogger ctors c).isOk = true) →
      NewLogger ctors bad = .error e →
      InitWithConfig ctors loggers (pre ++ bad :: rest)
        = (loggers ++ pre.filterMap (fun c => (NewLogger ctors c).toOption), some e)) :=
  ⟨initWithConfig_all_ok ctors loggers configs,
   initWithConfig_stops_at_failure ctors loggers pre rest bad e⟩

/-- Concrete constructor table used to evaluate the code at specific
inputs: console and UDP construction succeed, syslog construction fails. -/
def demoCtors : Constructors where
  NewConsoleLogger := fun _ => .ok demoBackend
  NewSysLogger := fun _ => .error "syslog unavailable"
  NewUDPLogger := fun _ => .ok demoBackend

/-- Witness for C3: one good console configuration, then a failing syslog
configuration, then a never-attempted UDP configuration: the console backend
stays registered and the syslog error is returned. -/
theorem initWithConfig_order_and_first_failure_witness :
    InitWithConfig demoCtors []
        ([⟨"console", "INFO"⟩] ++ (⟨"syslog", "WARN"⟩ : LogConfig) :: [⟨"udplog", "INFO"⟩])
      = ([] ++ [(⟨"console", "INFO"⟩ : LogConfig)].filterMap
            (fun c => (NewLogger demoCtors c).toOption),
         some "syslog unavailable") :=
  (initWithConfig_order_and_first_failure demoCtors [] []
      [⟨"console", "INFO"⟩] [⟨"udplog", "INFO"⟩] ⟨"syslog", "WARN"⟩ "syslog unavailable").2
    (by intro c hc; rw [List.mem_singleton] at hc; subst hc; rfl)
    rfl

/-- Modelled from the spec: the collaborator contract for a backend's
formatter (the backends themselves are not among the sources) — the final
string returned by `FormatMessage` contains the printf-rendered user text. -/
def FormatsUserText (logger : Logger) : Prop :=
  ∀ (sev : Severity) (file func : String) (line : Int) (format : String)
    (args : List GoValue), ∃ pre post,
    (logger.formatMessage sev file func line format args).data
      = pre ++ (goSprintf format args).data ++ post

/-- A concrete backend whose configured minimum severity is ERROR: its
writer is nil for severities below ERROR, so INFO messages are suppressed. -/
def quietBackend : Logger where
  writerAt := fun sev => decide (SeverityError ≤ sev)
  formatMessage := fun _ _ _ _ format args => goSprintf format args

/-- C2 (code divergence): `demoBackend`'s formatter is plain `goSprintf`,
which satisfies the spec's collaborator contract.  With registry
`[demoBackend, quietBackend]`, `Infof("x=%d", 5)` delivers one message to
the backend whose INFO writer is non-nil and none to the backend configured
at minimum severity ERROR — but because each emission passes `args`
unspread, the formatter receives the slice wrapped and the delivered text
is "x=[5]", not a text containing "x=5" as the claim states. -/
theorem infof_wrapped_variadic_x5 :
    FormatsUserText demoBackend
    ∧ (Infof "st" demoCaller [demoBackend, quietBackend] "x=%d" [.int 5]).2
        = [["x=[5]"], []]
    ∧ (((Infof "st" demoCaller [demoBackend, quietBackend] "x=%d" [.int 5]).2
        == [["x=5"], []]) = false) :=
  ⟨fun _ _ _ _ _ _ => ⟨[], [], by simp [demoBackend]⟩, rfl, by decide⟩

/-- A string contains another as a contiguous substring. -/
def strContains (m sub : String) : Prop :=
  ∃ pre post, m.data = pre ++ sub.data ++ post

/-- C6: `NewLogger` dispatches on `config.Name` through the fixed mapping
console/syslog/udplog to the corresponding constructor; for every other
name it returns an error whose message carries the `LogConfig` rendering
"LogConfig(Name=X, Severity=Y)" and therefore contains the literal `Name`
and `Severity` field values. -/
theorem newLogger_dispatch_and_unknown (ctors : Constructors) (config : LogConfig) :
    (config.Name = "console" → NewLogger ctors config = ctors.NewConsoleLogger config)
    ∧ (config.Name = "syslog" → NewLogger ctors config = ctors.NewSysLogger config)
    ∧ (config.Name = "udplog" → NewLogger ctors config = ctors.NewUDPLogger config)
    ∧ (config.Name ≠ "console" → config.Name ≠ "syslog" → config.Name ≠ "udplog" →
        NewLogger ctors config = .error ("unknown logger: " ++ config.render)
        ∧ strContains ("unknown logger: " ++ config.render) config.Name
        ∧ strContains ("unknown logger: " ++ config.render) config.Severity) := by
  obtain ⟨n, sv⟩ := config
  refine ⟨?_, ?_, ?_, ?_⟩
  · intro h
    simp only at h
    subst h
    rfl
  · intro h
    simp only at h
    subst h
    rfl
  · intro h
    simp only at h
    subst h
    rfl
  · intro h1 h2 h3
    simp only at h1 h2 h3
    refine ⟨?_, ?_, ?_⟩
    · show (match n with
        | "console" => ctors.NewConsoleLogger ⟨n, sv⟩
        | "syslog" => ctors.NewSysLogger ⟨n, sv⟩
        | "udplog" => ctors.NewUDPLogger ⟨n, sv⟩
        | _ => .error (goSprintf "unknown logger: %v" [.str (LogConfig.render ⟨n, sv⟩)]))
        = _
      split
      · exact absurd rfl h1
      · exact absurd rfl h2
      · exact absurd rfl h3
      · rw [goSprintf_unknown_logger]
    · refine ⟨"unknown logger: ".data ++ "LogConfig(Name=".data,
        (", Severity=" ++ sv ++ ")").data, ?_⟩
      simp [logConfig_render_eq, String.data_append, List.append_assoc]
    · refine ⟨("unknown logger: " ++ "LogConfig(Name=" ++ n ++ ", Severity=").data,
        ")".data, ?_⟩
      simp [logConfig_render_eq, String.data_append, List.append_assoc]

/-- Witness for C6: the unknown name "bogus" yields the unknown-logger
error, whose message contains both configuration field values. -/
theorem newLogger_dispatch_and_unknown_witness :
    NewLogger demoCtors ⟨"bogus", "INFO"⟩
      = .error ("unknown logger: " ++ LogConfig.render ⟨"bogus", "INFO"⟩)
    ∧ strContains ("unknown logger: " ++ LogConfig.render ⟨"bogus", "INFO"⟩) "bogus"
    ∧ strContains ("unknown logger: " ++ LogConfig.render ⟨"bogus", "INFO"⟩) "INFO" :=
  (newLogger_dispatch_and_unknown demoCtors ⟨"bogus", "INFO"⟩).2.2.2
    (by decide) (by decide) (by decide)

end PLog
